import Mathlib

/-!
Verification of the authentication / retry core of the `er-ccapi-python`
client SDK (`er_ccapi_python/client/gql_client.py` and
`er_ccapi_python/client/auth_service.py`), as a shallow embedding in Lean.

The network is modelled as an explicit environment value handed to each
operation: a GraphQL send returns one `SendOutcome`, a token fetch returns
one `HttpResult`.  Python exceptions are modelled as explicit error values
threaded through the return types.
-/

namespace ErCcapi

/-! ## GraphqlClient.query (gql_client.py, lines 107-146)

The client's only mutable state relevant here is the boolean
`self._reauthenticated`.  The environment is a list of `SendOutcome`s:
each call of `self.client.execute` consumes the head of the list.

`GraphQLError` from the `graphql` package and the four transport errors
from `gql.transport.exceptions` are each an except-branch of the source;
they are modelled as distinct outcomes.
-/

/-- What a single `self.client.execute(query, query_parameters)` call does:
either returns a response dictionary or raises one of the exception classes
distinguished by the source's `except` clauses. -/
inductive SendOutcome where
  | ok (resp : List (String × String))
  | graphQLError
  | protocolError
  | queryError
  | closed
  | serverError
  | otherError
  deriving DecidableEq, Repr

/-- The exception surfaced to the caller of `GraphqlClient.query`
(every handler except the first-`TransportProtocolError` one re-raises). -/
inductive GqlErr where
  | graphQLError
  | protocolError
  | queryError
  | closed
  | serverError
  | otherError
  | noOutcome   -- environment exhausted; unreachable in the theorems below
  deriving DecidableEq, Repr

deriving instance DecidableEq for Except

/-- Observable effect of one call of `GraphqlClient.query`:
what is returned or raised, how many `execute` sends happened, how many
`_initialize_client` re-initializations (reauthentications) happened, and
the value of `self._reauthenticated` when the call finishes (the `finally`
block always resets it to `False`). -/
structure QueryRun where
  result : Except GqlErr (List (String × String))
  sends : Nat
  reauths : Nat
  flag : Bool
  deriving DecidableEq, Repr

/-- `GraphqlClient.query` (gql_client.py lines 107-146), with
`self._reauthenticated` passed as the first argument and the environment's
send outcomes as the second.  Faithful points:
* on `TransportProtocolError` with the flag unset, the source runs
  `self._initialize_client(); self._reauthenticated = True;
  self.query(...)` — the recursive call's return value is *discarded*,
  the handler falls through the `finally` to the trailing `return {}`
  (modelled as `.ok []`);
* if the recursive call raises, that exception propagates;
* on `TransportProtocolError` with the flag set, the source re-raises;
* every other exception class is logged and re-raised;
* the `finally` clause sets `self._reauthenticated = False` on every exit. -/
def query : Bool → List SendOutcome → QueryRun
  | reauth, [] => ⟨.error .noOutcome, 0, 0, reauth⟩
  | reauth, o :: rest =>
    match o with
    | .ok resp => ⟨.ok resp, 1, 0, false⟩
    | .graphQLError => ⟨.error .graphQLError, 1, 0, false⟩
    | .protocolError =>
        if reauth then
          -- `if self._reauthenticated: ... raise`
          ⟨.error .protocolError, 1, 0, false⟩
        else
          -- `self._initialize_client(); self._reauthenticated = True;
          --  self.query(query=query, query_parameters=query_parameters)`
          let inner := query true rest
          match inner.result with
          | .ok _ =>
              -- inner response discarded; fall through to `return {}`
              ⟨.ok [], 1 + inner.sends, 1 + inner.reauths, false⟩
          | .error e =>
              -- exception raised by the retry propagates through `finally`
              ⟨.error e, 1 + inner.sends, 1 + inner.reauths, false⟩
    | .queryError => ⟨.error .queryError, 1, 0, false⟩
    | .closed => ⟨.error .closed, 1, 0, false⟩
    | .serverError => ⟨.error .serverError, 1, 0, false⟩
    | .otherError => ⟨.error .otherError, 1, 0, false⟩

/-! ## AuthService (auth_service.py)

State: `self.__access_token` and `self.__auth_scheduler` (modelled as
"is the scheduler object created and started", plus a ghost counter of how
often `BackgroundScheduler()`/`.start()` ran).  The environment of one
token fetch is an `HttpResult`: what `requests.post` returned or raised. -/

/-- A JSON response body: either a parsed JSON object (modelled as a flat
string-to-string association list, enough for `{"access_token": ...}`) or
text that fails JSON decoding. -/
inductive JsonBody where
  | obj (fields : List (String × String))
  | malformed
  deriving DecidableEq, Repr

/-- What one `requests.post` call yields: a response with a status code and
body, `requests.exceptions.Timeout`, or another
`requests.exceptions.RequestException`. -/
inductive HttpResult where
  | response (status : Nat) (body : JsonBody)
  | timeout
  | requestError
  deriving DecidableEq, Repr

/-- Python exceptions the auth service can raise across its boundary. -/
inductive PyErr where
  | keyError (k : String)
  | valueError (msg : String)
  deriving DecidableEq, Repr

/-- The outbound HTTP request issued by a token fetch. -/
structure HttpRequest where
  method : String
  url : String
  headers : List (String × String)
  jsonBody : List (String × String)
  timeout : Int
  deriving DecidableEq, Repr

/-- Mutable and immutable fields of an `AuthService` instance.
`scheduler_running` models `self.__auth_scheduler is not None` (the source
creates and starts the scheduler in one step); `scheduler_starts` is a
ghost counter of `BackgroundScheduler()` + `.start()` executions. -/
structure AuthService where
  access_token : Option String
  scheduler_running : Bool
  scheduler_starts : Nat
  endpoint : String
  login_credentials : String
  refresh_interval : Int
  timeout : Int
  deriving DecidableEq, Repr

/-- Python truthiness test `not self.__access_token`:
true when the token is `None` or the empty string. -/
def tokenFalsy : Option String → Bool
  | none => true
  | some s => s.isEmpty

/-- Dictionary lookup `json_response["access_token"]`, as an option. -/
def lookupField : List (String × String) → String → Option String
  | [], _ => none
  | (k', v) :: rest, k => if k' = k then some v else lookupField rest k

/-- Result of a state-mutating call: the post-state, the exception that
propagated out of it (if any), and the outbound HTTP requests it issued. -/
structure FetchStep where
  state : AuthService
  err : Option PyErr
  requests : List HttpRequest
  deriving Repr

/-- The single outbound request built at auth_service.py lines 122-127:
`POST self.__endpoint` with `Content-Type: application/json`,
`authorization: Basic <login_credentials>`, empty JSON body `{}` and the
instance timeout. -/
def AuthService.fetchRequest (st : AuthService) : HttpRequest :=
  { method := "POST"
    url := st.endpoint
    headers := [("Content-Type", "application/json"),
                ("authorization", "Basic " ++ st.login_credentials)]
    jsonBody := []
    timeout := st.timeout }

/-- `AuthService._handle_access_token` (auth_service.py lines 118-140).
One `requests.post(self.__endpoint, json={}, headers=headers,
timeout=timeout)`.
* 2xx with a JSON object containing `access_token`: token stored;
* 2xx with a JSON object missing `access_token`:
  `json_response["access_token"]` raises `KeyError`, caught by none of the
  handlers (they only catch `requests.exceptions.*`), so it propagates and
  the token is left as it was;
* 2xx with a malformed body: `response.json()` raises
  `requests.exceptions.JSONDecodeError`, a `RequestException` subclass
  (requests >= 2.27; setup.py pins requests >= 2.31.0), caught: token
  cleared;
* non-2xx status, `Timeout`, `RequestException`: token cleared. -/
def AuthService.handle_access_token (st : AuthService) (net : HttpResult) :
    FetchStep :=
  let req : HttpRequest := st.fetchRequest
  match net with
  | .response status body =>
      if 200 ≤ status ∧ status < 300 then
        match body with
        | .obj fields =>
            match lookupField fields "access_token" with
            | some tok => ⟨{ st with access_token := some tok }, none, [req]⟩
            | none => ⟨st, some (.keyError "access_token"), [req]⟩
        | .malformed => ⟨{ st with access_token := none }, none, [req]⟩
      else ⟨{ st with access_token := none }, none, [req]⟩
  | .timeout => ⟨{ st with access_token := none }, none, [req]⟩
  | .requestError => ⟨{ st with access_token := none }, none, [req]⟩

/-- `AuthService._authenticate` (auth_service.py lines 100-116): one
synchronous `_handle_access_token`, then — only reached if no exception —
`if self.__auth_scheduler is None:` create and start the background
scheduler and add the interval refresh job. -/
def AuthService.authenticate (st : AuthService) (net : HttpResult) :
    FetchStep :=
  let f := st.handle_access_token net
  match f.err with
  | some e => ⟨f.state, some e, f.requests⟩
  | none =>
      if f.state.scheduler_running then ⟨f.state, none, f.requests⟩
      else
        ⟨{ f.state with
            scheduler_running := true
            scheduler_starts := f.state.scheduler_starts + 1 },
          none, f.requests⟩

/-- Result of `get_bearer_token` / `get_auth_header`: the returned value
(absent when `None` was returned or an exception propagated), post-state,
propagated exception, and the number of synchronous token fetches
performed during the call. -/
structure TokenStep (α : Type) where
  result : Option α
  state : AuthService
  err : Option PyErr
  fetches : Nat
  deriving Repr

/-- `AuthService.get_bearer_token` (auth_service.py lines 142-154):
`if not self.__access_token or self.__auth_scheduler is None:
self._authenticate()`; then `return None` on a falsy token, otherwise
`return f"Bearer {self.__access_token}"`. -/
def AuthService.get_bearer_token (st : AuthService) (net : HttpResult) :
    TokenStep String :=
  if tokenFalsy st.access_token || !st.scheduler_running then
    let a := st.authenticate net
    match a.err with
    | some e => ⟨none, a.state, some e, 1⟩
    | none =>
        match a.state.access_token, tokenFalsy a.state.access_token with
        | some tok, false => ⟨some ("Bearer " ++ tok), a.state, none, 1⟩
        | _, _ => ⟨none, a.state, none, 1⟩
  else
    match st.access_token, tokenFalsy st.access_token with
    | some tok, false => ⟨some ("Bearer " ++ tok), st, none, 0⟩
    | _, _ => ⟨none, st, none, 0⟩

/-- `AuthService.get_auth_header` (auth_service.py lines 156-163):
`bearer = self.get_bearer_token()`; `None` when bearer is falsy, else the
single-entry dictionary with lower-case key `"authorization"`. -/
def AuthService.get_auth_header (st : AuthService) (net : HttpResult) :
    TokenStep (List (String × String)) :=
  let t := st.get_bearer_token net
  match t.err with
  | some e => ⟨none, t.state, some e, t.fetches⟩
  | none =>
      match t.result with
      | none => ⟨none, t.state, none, t.fetches⟩
      | some b =>
          if b.isEmpty then ⟨none, t.state, none, t.fetches⟩
          else ⟨some [("authorization", b)], t.state, none, t.fetches⟩

/-- `AuthService.__del__` (auth_service.py lines 91-98): if the scheduler
exists, `try: shutdown() except: pass` — any exception, including the one
thrown by `shutdown` on an already-stopped scheduler (`shutdownRaises`),
is swallowed.  Returns (propagated exception, whether a shutdown was
attempted). -/
def AuthService.del_ (st : AuthService) (_shutdownRaises : Bool) :
    Option PyErr × Bool :=
  if st.scheduler_running then
    -- `except: pass`: the value of `shutdownRaises` never escapes
    (none, true)
  else (none, false)

/-! ### Construction (`AuthService.__init__`, auth_service.py lines 20-66)

The `login_credentials` field is
`base64.b64encode(f"{user_email}:{user_api_key}".encode()).decode()`;
UTF-8 encoding and base64 are implemented below. -/

/-- UTF-8 encoding of one Unicode code point, as byte values. -/
def utf8EncodeChar (c : Char) : List Nat :=
  let n := c.toNat
  if n < 128 then [n]
  else if n < 2048 then [192 + n / 64, 128 + n % 64]
  else if n < 65536 then [224 + n / 4096, 128 + n / 64 % 64, 128 + n % 64]
  else [240 + n / 262144, 128 + n / 4096 % 64, 128 + n / 64 % 64,
        128 + n % 64]

/-- UTF-8 encoding of a string (`str.encode()`), as byte values. -/
def utf8Encode (s : String) : List Nat :=
  s.data.foldr (fun c acc => utf8EncodeChar c ++ acc) []

/-- The 64 base64 digits. -/
def base64Alphabet : List Char :=
  "ABCDEFGHIJKLMNOPQRSTUVWXYZabcdefghijklmnopqrstuvwxyz0123456789+/".data

/-- The base64 digit for a 6-bit value. -/
def b64Char (n : Nat) : Char := base64Alphabet.getD n 'A'

/-- Standard base64 of a byte list, with `=` padding
(`base64.b64encode`). -/
def b64encodeBytes : List Nat → List Char
  | [] => []
  | [b1] => [b64Char (b1 / 4), b64Char (b1 % 4 * 16), '=', '=']
  | [b1, b2] => [b64Char (b1 / 4), b64Char (b1 % 4 * 16 + b2 / 16),
                 b64Char (b2 % 16 * 4), '=']
  | b1 :: b2 :: b3 :: rest =>
      b64Char (b1 / 4) :: b64Char (b1 % 4 * 16 + b2 / 16) ::
      b64Char (b2 % 16 * 4 + b3 / 64) :: b64Char (b3 % 64) ::
      b64encodeBytes rest

/-- `base64.b64encode(s.encode()).decode("utf-8")`. -/
def b64encode (s : String) : String := ⟨b64encodeBytes (utf8Encode s)⟩

/-- The `config["auth_service"]` section as read by `__init__`.
`user_api_key` is the raw config entry (read at line 32 but overwritten at
lines 37-40 before use); `refresh_interval := none` models a missing key,
defaulted to 300 at lines 41-46. -/
structure AuthConfig where
  endpoint : String
  user_email : String
  user_api_key_file : Option String
  user_api_key : Option String
  refresh_interval : Option Int
  deriving DecidableEq, Repr

/-- Python `str.strip()`: drop whitespace from both ends. -/
def pyStrip (s : String) : String :=
  ⟨((s.data.dropWhile Char.isWhitespace).reverse.dropWhile
      Char.isWhitespace).reverse⟩

/-- The effective API key computed at auth_service.py lines 37-40:
`None` when no key file is configured, otherwise the stripped file
content; the `user_api_key` config entry is always overwritten. -/
def effectiveApiKey (cfg : AuthConfig) (readFile : String → String) :
    Option String :=
  match cfg.user_api_key_file with
  | none => none
  | some f => some (pyStrip (readFile f))

/-- `AuthService.__init__` (auth_service.py lines 20-66).  `readFile f` is
the content of file `f` (`open(user_api_key_file).read()`).  Returns the
constructed state or the raised exception, plus the outbound network
requests issued during construction (none — `__init__` performs no
network call).  Faithful points:
* the effective API key is `None` when no key file is configured, else the
  stripped file content (lines 37-40 overwrite any `user_api_key` entry);
* a missing `refresh_interval` defaults to 300;
* the four `if not ...` validations run in source order and test Python
  truthiness: an integer is falsy exactly when it is 0, so a *negative*
  refresh interval passes validation;
* the timeout is hardcoded to 5 (line 66); no timeout is read from the
  configuration and none is validated. -/
def AuthService.init (cfg : AuthConfig) (readFile : String → String) :
    Except PyErr AuthService × List HttpRequest :=
  let user_api_key : Option String := effectiveApiKey cfg readFile
  let refresh_interval : Int := cfg.refresh_interval.getD 300
  if cfg.endpoint.isEmpty then
    (.error (.valueError "Auth service endpoint must be provided."), [])
  else if cfg.user_email.isEmpty then
    (.error (.valueError "User email must be provided."), [])
  else if tokenFalsy user_api_key then
    (.error (.valueError "User api key must be provided."), [])
  else if refresh_interval = 0 then
    (.error (.valueError "Refresh interval must be provided."), [])
  else
    (.ok
      { access_token := none
        scheduler_running := false
        scheduler_starts := 0
        endpoint := cfg.endpoint
        login_credentials :=
          b64encode (cfg.user_email ++ ":" ++ user_api_key.getD "")
        refresh_interval := refresh_interval
        timeout := 5 }, [])

/-! ### Operation sequences -/

/-- One public operation on an `AuthService`, with the `HttpResult` its
(possible) token fetch receives from the network. -/
inductive AuthOp where
  | authenticateNow (net : HttpResult)
  | getBearerHeader (net : HttpResult)
  deriving Repr

/-- Post-state of one operation (exceptions propagate to the caller of the
operation; the state is as the operation left it). -/
def runOp (st : AuthService) : AuthOp → AuthService
  | .authenticateNow net => (st.authenticate net).state
  | .getBearerHeader net => (st.get_auth_header net).state

/-- Post-state of a sequence of operations. -/
def runOps (st : AuthService) : List AuthOp → AuthService
  | [] => st
  | op :: rest => runOps (runOp st op) rest

/-! ### Spec-side helpers used in theorem statements -/

/-- The bearer string computed by auth_service.py lines 151-154 from a
token value: `None` on a falsy token, else the `Bearer `-prefixed token. -/
def bearerOf : Option String → Option String
  | none => none
  | some tok => if tok.isEmpty then none else some ("Bearer " ++ tok)

/-- Fetch environments the spec classifies as plain (non-2xx / timeout /
transport) failures: HTTP status outside `[200, 300)`, a timeout, or a
transport-level request error. -/
def failedFetch : HttpResult → Bool
  | .response s _ => decide (s < 200) || decide (300 ≤ s)
  | .timeout => true
  | .requestError => true

/-- Scheduler bookkeeping invariant: the ghost start counter is 1 exactly
when the scheduler object exists. -/
def schedInv (st : AuthService) : Prop :=
  st.scheduler_starts = (if st.scheduler_running then 1 else 0)

/-! ### Concrete sample values used by witnesses and counterexamples -/

/-- A configuration that is valid except for a *negative* refresh
interval. -/
def negIntervalCfg : AuthConfig :=
  { endpoint := "https://login.example.com/token"
    user_email := "user@example.com"
    user_api_key_file := some "keyfile"
    user_api_key := none
    refresh_interval := some (-5) }

/-- A fully valid sample configuration. -/
def cfgSample : AuthConfig :=
  { endpoint := "https://login.example.com/token"
    user_email := "user@example.com"
    user_api_key_file := some "keyfile"
    user_api_key := none
    refresh_interval := some 300 }

/-- Sample key-file contents. -/
def rfSample : String → String := fun _ => "sekret"

/-- The service state `AuthService.init cfgSample rfSample` constructs. -/
def stSample : AuthService :=
  { access_token := none
    scheduler_running := false
    scheduler_starts := 0
    endpoint := "https://login.example.com/token"
    login_credentials := b64encode "user@example.com:sekret"
    refresh_interval := 300
    timeout := 5 }

/-- A state holding a previously cached token with the scheduler
running. -/
def stCached : AuthService :=
  { stSample with access_token := some "oldtoken", scheduler_running := true,
                  scheduler_starts := 1 }

/-- `cfgSample` with an empty endpoint. -/
def cfgEmptyEndpoint : AuthConfig := { cfgSample with endpoint := "" }

/-- A sample operation sequence: an explicit authenticate-now with a
successful fetch, then a bearer-header request in a failing
environment. -/
def opsW : List AuthOp :=
  [.authenticateNow (.response 200 (.obj [("access_token", "t1")])),
   .getBearerHeader .timeout]

/-! ## Theorems

### RequestExecutor (GraphqlClient.query) -/

/-- With the reauthentication flag already set, one call of `query` does a
single send and never reinitializes the transport. -/
lemma query_true_bounds (os : List SendOutcome) :
    (query true os).sends ≤ 1 ∧ (query true os).reauths = 0 := by
  cases os with
  | nil => exact ⟨Nat.zero_le _, rfl⟩
  | cons o rest => cases o <;> simp [query]

/-- Global bound: a `query` call starting with the flag unset performs at
most two sends and at most one transport reinitialization. -/
lemma query_false_bounds (os : List SendOutcome) :
    (query false os).sends ≤ 2 ∧ (query false os).reauths ≤ 1 := by
  cases os with
  | nil => exact ⟨Nat.zero_le _, Nat.zero_le _⟩
  | cons o rest =>
    cases o with
    | protocolError =>
        have h := query_true_bounds rest
        cases hr : (query true rest).result <;> simp [query, hr] <;> omega
    | ok resp => simp [query]
    | graphQLError => simp [query]
    | queryError => simp [query]
    | closed => simp [query]
    | serverError => simp [query]
    | otherError => simp [query]

/-- **C1** (status: code bug).  When the first send raises
`TransportProtocolError` and the retried send succeeds with response
`{"data": "42"}`, exactly one reauthentication occurs and exactly two
sends happen, but the call returns the empty dictionary `{}` — the
successful retry's response is discarded (the recursive `self.query(...)`
call at gql_client.py line 130 is not `return`ed, so control falls through
to `return {}` at line 146) — while a direct success (second conjunct)
does return its response. -/
theorem c1_retry_response_discarded :
    query false [.protocolError, .ok [("data", "42")]] =
      ⟨.ok [], 2, 1, false⟩ ∧
    query false [.ok [("data", "42")]] =
      ⟨.ok [("data", "42")], 1, 0, false⟩ :=
  ⟨rfl, rfl⟩

/-- **C2** (status: confirmed).  A request whose original send and retried
send both raise `TransportProtocolError` terminates with that error
surfaced after exactly 2 sends and exactly 1 reauthentication, for every
continuation of the environment; and in general every logical request
performs at most two sends and at most one reauthentication. -/
theorem c2_retry_at_most_once (rest os : List SendOutcome) :
    query false (.protocolError :: .protocolError :: rest) =
      ⟨.error .protocolError, 2, 1, false⟩ ∧
    (query false os).sends ≤ 2 ∧ (query false os).reauths ≤ 1 :=
  ⟨rfl, query_false_bounds os⟩

/-! ### AuthService: basic lemmas -/

/-- A `Bearer`-prefixed string is never empty. -/
lemma bearer_isEmpty_false (tok : String) :
    ("Bearer " ++ tok).isEmpty = false := by
  rw [Bool.eq_false_iff]
  intro h
  have h2 := (String.isEmpty_iff _).mp h
  have hd := congrArg String.data h2
  simp at hd

/-- A token fetch issues exactly the one request built at
auth_service.py lines 122-127, in every environment. -/
lemma handle_requests (st : AuthService) (net : HttpResult) :
    (st.handle_access_token net).requests = [st.fetchRequest] := by
  unfold AuthService.handle_access_token
  cases net with
  | response s b =>
      by_cases hc : 200 ≤ s ∧ s < 300
      · cases b with
        | obj fields =>
            cases hl : lookupField fields "access_token" <;> simp [hc, hl]
        | malformed => simp [hc]
      · simp [hc]
  | timeout => rfl
  | requestError => rfl

/-- A fetch never touches the scheduler fields. -/
lemma handle_sched (st : AuthService) (net : HttpResult) :
    (st.handle_access_token net).state.scheduler_running =
      st.scheduler_running ∧
    (st.handle_access_token net).state.scheduler_starts =
      st.scheduler_starts := by
  unfold AuthService.handle_access_token
  cases net with
  | response s b =>
      by_cases hc : 200 ≤ s ∧ s < 300
      · cases b with
        | obj fields =>
            cases hl : lookupField fields "access_token" <;> simp [hc, hl]
        | malformed => simp [hc]
      · simp [hc]
  | timeout => exact ⟨rfl, rfl⟩
  | requestError => exact ⟨rfl, rfl⟩

/-- A fetch in a plainly failing environment clears the token, raises
nothing, and issues the single request. -/
lemma handle_failed (st : AuthService) (net : HttpResult)
    (h : failedFetch net = true) :
    st.handle_access_token net =
      ⟨{ st with access_token := none }, none, [st.fetchRequest]⟩ := by
  cases net with
  | response s b =>
      have hs : ¬ (200 ≤ s ∧ s < 300) := by
        simp only [failedFetch, Bool.or_eq_true, decide_eq_true_eq] at h
        omega
      simp [AuthService.handle_access_token, hs]
  | timeout => rfl
  | requestError => rfl

/-- A fetch whose 2xx response carries an `access_token` field stores that
token and raises nothing. -/
lemma handle_success (st : AuthService) (tok : String) :
    st.handle_access_token (.response 200 (.obj [("access_token", tok)])) =
      ⟨{ st with access_token := some tok }, none, [st.fetchRequest]⟩ := by
  simp [AuthService.handle_access_token, lookupField]

/-- `_authenticate` after a plainly failing fetch: token cleared, nothing
raised. -/
lemma authenticate_failed (st : AuthService) (net : HttpResult)
    (h : failedFetch net = true) :
    (st.authenticate net).state.access_token = none ∧
    (st.authenticate net).err = none := by
  simp only [AuthService.authenticate, handle_failed st net h]
  cases hr : st.scheduler_running <;> simp [hr]

/-- `_authenticate` after a successful fetch: token stored, nothing
raised. -/
lemma authenticate_success (st : AuthService) (tok : String) :
    (st.authenticate
        (.response 200 (.obj [("access_token", tok)]))).state.access_token =
      some tok ∧
    (st.authenticate (.response 200 (.obj [("access_token", tok)]))).err =
      none := by
  simp only [AuthService.authenticate, handle_success st tok]
  cases hr : st.scheduler_running <;> simp [hr]

/-- Once the scheduler is running, `_authenticate` keeps it running and
never starts another one. -/
lemma authenticate_running (st : AuthService) (net : HttpResult)
    (h : st.scheduler_running = true) :
    (st.authenticate net).state.scheduler_running = true ∧
    (st.authenticate net).state.scheduler_starts = st.scheduler_starts := by
  unfold AuthService.authenticate
  have hs := handle_sched st net
  have hrun : (st.handle_access_token net).state.scheduler_running = true :=
    hs.1.trans h
  cases he : (st.handle_access_token net).err with
  | some e =>
      simp only [he]
      exact ⟨hrun, hs.2⟩
  | none => simp [he, hrun, hs.2]

/-- `_authenticate` preserves the scheduler bookkeeping invariant. -/
lemma authenticate_schedInv (st : AuthService) (net : HttpResult)
    (h : schedInv st) : schedInv ((st.authenticate net).state) := by
  unfold AuthService.authenticate
  have hs := handle_sched st net
  unfold schedInv at h ⊢
  cases he : (st.handle_access_token net).err with
  | some e =>
      simp only [he]
      rw [hs.1, hs.2]
      exact h
  | none =>
      cases hr : st.scheduler_running with
      | true =>
          have hrun :
              (st.handle_access_token net).state.scheduler_running = true :=
            hs.1.trans hr
          simp only [he, hrun, if_true]
          simp only [hrun, hs.2]
          rw [hr] at h
          simpa using h
      | false =>
          have hrun :
              (st.handle_access_token net).state.scheduler_running = false :=
            hs.1.trans hr
          simp only [he, hrun]
          simp only [Bool.false_eq_true, if_false]
          simp only [hs.2]
          rw [hr] at h
          simp at h
          simp [h]

/-- `get_bearer_token` performs one synchronous fetch exactly when the
token is falsy or the scheduler has not been started. -/
lemma get_bearer_token_fetches (st : AuthService) (net : HttpResult) :
    (st.get_bearer_token net).fetches =
      (if (tokenFalsy st.access_token || !st.scheduler_running) = true
       then 1 else 0) := by
  unfold AuthService.get_bearer_token
  split
  · cases he : (st.authenticate net).err with
    | some e => simp [he]
    | none =>
        simp only [he]
        split <;> rfl
  · split <;> rfl

/-- Post-state of `get_bearer_token`. -/
lemma get_bearer_token_state (st : AuthService) (net : HttpResult) :
    (st.get_bearer_token net).state =
      (if (tokenFalsy st.access_token || !st.scheduler_running) = true
       then (st.authenticate net).state else st) := by
  unfold AuthService.get_bearer_token
  split
  · cases he : (st.authenticate net).err with
    | some e => simp [he]
    | none =>
        simp only [he]
        split <;> rfl
  · split <;> rfl

/-- Propagated exception of `get_bearer_token`. -/
lemma get_bearer_token_err (st : AuthService) (net : HttpResult) :
    (st.get_bearer_token net).err =
      (if (tokenFalsy st.access_token || !st.scheduler_running) = true
       then (st.authenticate net).err else none) := by
  unfold AuthService.get_bearer_token
  split
  · cases he : (st.authenticate net).err with
    | some e => simp [he]
    | none =>
        simp only [he]
        split <;> rfl
  · split <;> rfl

/-- When no exception propagates, the value `get_bearer_token` returns is
the bearer of the post-state token (auth_service.py lines 151-154). -/
lemma get_bearer_token_result (st : AuthService) (net : HttpResult)
    (h : (st.get_bearer_token net).err = none) :
    (st.get_bearer_token net).result =
      bearerOf ((st.get_bearer_token net).state.access_token) := by
  unfold AuthService.get_bearer_token
  split
  · cases he : (st.authenticate net).err with
    | some e =>
        have h2 := get_bearer_token_err st net
        rw [h, he] at h2
        split at h2 <;> simp_all
    | none =>
        simp only [he]
        cases ht : (st.authenticate net).state.access_token with
        | none => simp [ht, bearerOf, tokenFalsy]
        | some tok =>
            cases hemp : tok.isEmpty <;>
              simp [ht, hemp, bearerOf, tokenFalsy]
  · cases ht : st.access_token with
    | none => simp [ht, bearerOf, tokenFalsy]
    | some tok =>
        cases hemp : tok.isEmpty <;> simp [ht, hemp, bearerOf, tokenFalsy]

/-- `get_auth_header` forwards the fetch count of `get_bearer_token`. -/
lemma get_auth_header_fetches (st : AuthService) (net : HttpResult) :
    (st.get_auth_header net).fetches = (st.get_bearer_token net).fetches := by
  unfold AuthService.get_auth_header
  cases he : (st.get_bearer_token net).err with
  | some e => simp [he]
  | none =>
      simp only [he]
      cases hr : (st.get_bearer_token net).result with
      | none => rfl
      | some b => cases hb : b.isEmpty <;> simp [hb]

/-- `get_auth_header` forwards the post-state of `get_bearer_token`. -/
lemma get_auth_header_state (st : AuthService) (net : HttpResult) :
    (st.get_auth_header net).state = (st.get_bearer_token net).state := by
  unfold AuthService.get_auth_header
  cases he : (st.get_bearer_token net).err with
  | some e => simp [he]
  | none =>
      simp only [he]
      cases hr : (st.get_bearer_token net).result with
      | none => rfl
      | some b => cases hb : b.isEmpty <;> simp [hb]

/-- `get_auth_header` forwards the propagated exception of
`get_bearer_token`. -/
lemma get_auth_header_err (st : AuthService) (net : HttpResult) :
    (st.get_auth_header net).err = (st.get_bearer_token net).err := by
  unfold AuthService.get_auth_header
  cases he : (st.get_bearer_token net).err with
  | some e => simp [he]
  | none =>
      simp only [he]
      cases hr : (st.get_bearer_token net).result with
      | none => rfl
      | some b => cases hb : b.isEmpty <;> simp [hb]

/-- `get_auth_header` wraps a non-falsy bearer in the single-key
dictionary and returns `None` otherwise. -/
lemma get_auth_header_result (st : AuthService) (net : HttpResult)
    (h : (st.get_bearer_token net).err = none) :
    (st.get_auth_header net).result =
      (match (st.get_bearer_token net).result with
       | none => none
       | some b => if b.isEmpty then none else some [("authorization", b)]) := by
  unfold AuthService.get_auth_header
  simp only [h]
  cases hr : (st.get_bearer_token net).result with
  | none => rfl
  | some b => cases hb : b.isEmpty <;> simp [hb]

/-- `_authenticate` propagates exactly the exception of its fetch. -/
lemma authenticate_err (st : AuthService) (net : HttpResult) :
    (st.authenticate net).err = (st.handle_access_token net).err := by
  unfold AuthService.authenticate
  cases he : (st.handle_access_token net).err with
  | some e => simp [he]
  | none =>
      simp only [he]
      split <;> rfl

/-- When the fetch does not raise, `_authenticate` leaves the token the
fetch produced. -/
lemma authenticate_token (st : AuthService) (net : HttpResult)
    (h : (st.handle_access_token net).err = none) :
    (st.authenticate net).state.access_token =
      (st.handle_access_token net).state.access_token := by
  unfold AuthService.authenticate
  simp only [h]
  split <;> rfl

/-- The state a successful construction returns
(auth_service.py lines 48-66). -/
lemma init_ok (cfg : AuthConfig) (rf : String → String) (st : AuthService)
    (h : (AuthService.init cfg rf).1 = .ok st) :
    st = { access_token := none
           scheduler_running := false
           scheduler_starts := 0
           endpoint := cfg.endpoint
           login_credentials := b64encode
             (cfg.user_email ++ ":" ++ (effectiveApiKey cfg rf).getD "")
           refresh_interval := cfg.refresh_interval.getD 300
           timeout := 5 } := by
  simp only [AuthService.init] at h
  split_ifs at h
  simp_all

/-- Construction never issues a network request. -/
lemma init_requests (cfg : AuthConfig) (rf : String → String) :
    (AuthService.init cfg rf).2 = [] := by
  simp only [AuthService.init]
  split_ifs <;> rfl

/-- One public operation preserves the scheduler bookkeeping
invariant. -/
lemma runOp_schedInv (st : AuthService) (op : AuthOp) (h : schedInv st) :
    schedInv (runOp st op) := by
  cases op with
  | authenticateNow net => exact authenticate_schedInv st net h
  | getBearerHeader net =>
      show schedInv ((st.get_auth_header net).state)
      rw [get_auth_header_state, get_bearer_token_state]
      split
      · exact authenticate_schedInv st net h
      · exact h

/-- Every operation sequence preserves the scheduler bookkeeping
invariant. -/
lemma runOps_schedInv (st : AuthService) (ops : List AuthOp)
    (h : schedInv st) : schedInv (runOps st ops) := by
  induction ops generalizing st with
  | nil => exact h
  | cons op rest ih => exact ih (runOp st op) (runOp_schedInv st op h)

/-! ### The claims about AuthService -/

/-- **C3** (counterexample).  A 2xx token-fetch response that is valid
JSON but lacks `access_token` does *not* clear the cached token — the
uncaught `KeyError` leaves `"oldtoken"` in place — and the same `KeyError`
propagates out of `get_bearer_token` when the call triggers a fetch,
contradicting the claim that the token is cleared and no exception reaches
the caller. -/
theorem c3_missing_key_counterexample :
    (stCached.handle_access_token
        (.response 200 (.obj [("expires_in", "3600")]))).err =
      some (.keyError "access_token") ∧
    (stCached.handle_access_token
        (.response 200 (.obj [("expires_in", "3600")]))).state.access_token =
      some "oldtoken" ∧
    (stSample.get_bearer_token
        (.response 200 (.obj [("expires_in", "3600")]))).err =
      some (.keyError "access_token") :=
  ⟨rfl, rfl, rfl⟩

/-- **C3 as amended** (status: corrected).  For a 2xx fetch whose body is
malformed JSON, the fetch fails silently *at every service state,
including one holding a previously cached token*: the token is cleared
and no exception propagates; when `get_auth_header` is the caller that
triggered the fetch (the source's own trigger condition at
auth_service.py line 148), it returns no header, raises nothing, and
leaves no token cached.  But for a 2xx body that is valid JSON without
`access_token`, a `KeyError "access_token"` propagates (also out of
`get_auth_header` when it triggered the fetch) and the previously cached
token is left unchanged. -/
theorem c3_fetch_body_errors (st : AuthService) (s : Nat)
    (fields : List (String × String))
    (hs : 200 ≤ s) (hs2 : s < 300)
    (hmiss : lookupField fields "access_token" = none) :
    (st.handle_access_token (.response s .malformed)).state.access_token =
      none ∧
    (st.handle_access_token (.response s .malformed)).err = none ∧
    ((tokenFalsy st.access_token || !st.scheduler_running) = true →
      (st.get_auth_header (.response s .malformed)).result = none ∧
      (st.get_auth_header (.response s .malformed)).err = none ∧
      (st.get_auth_header
          (.response s .malformed)).state.access_token = none) ∧
    (st.handle_access_token (.response s (.obj fields))).err =
      some (.keyError "access_token") ∧
    (st.handle_access_token (.response s (.obj fields))).state = st ∧
    ((tokenFalsy st.access_token || !st.scheduler_running) = true →
      (st.get_auth_header (.response s (.obj fields))).err =
        some (.keyError "access_token")) := by
  have hm : st.handle_access_token (.response s .malformed) =
      ⟨{ st with access_token := none }, none, [st.fetchRequest]⟩ := by
    simp [AuthService.handle_access_token, hs, hs2]
  have ho : st.handle_access_token (.response s (.obj fields)) =
      ⟨st, some (.keyError "access_token"), [st.fetchRequest]⟩ := by
    simp [AuthService.handle_access_token, hs, hs2, hmiss]
  refine ⟨by rw [hm], by rw [hm], fun hcond => ?_, by rw [ho], by rw [ho],
    fun hcond => ?_⟩
  · have hberrm :
        (st.get_bearer_token (.response s .malformed)).err = none := by
      rw [get_bearer_token_err, if_pos hcond, authenticate_err, hm]
    have htokm : (st.get_bearer_token
        (.response s .malformed)).state.access_token = none := by
      rw [get_bearer_token_state, if_pos hcond,
          authenticate_token _ _ (by rw [hm]), hm]
    have hbres :
        (st.get_bearer_token (.response s .malformed)).result = none := by
      rw [get_bearer_token_result _ _ hberrm, htokm]
      rfl
    refine ⟨?_, ?_, ?_⟩
    · rw [get_auth_header_result _ _ hberrm, hbres]
    · rw [get_auth_header_err, hberrm]
    · rw [get_auth_header_state, htokm]
  · have hberro : (st.get_bearer_token (.response s (.obj fields))).err =
        some (.keyError "access_token") := by
      rw [get_bearer_token_err, if_pos hcond, authenticate_err, ho]
    rw [get_auth_header_err, hberro]

/-- Witness for `c3_fetch_body_errors`, applied both at the cached-token
state `stCached` (the malformed fetch clears `"oldtoken"`; the
missing-key fetch raises and keeps it) and at the fresh state `stSample`
(where `get_auth_header` triggers the fetch), with status 200 and body
`{"expires_in": "3600"}`. -/
theorem c3_fetch_body_errors_witness :
    (stCached.handle_access_token
        (.response 200 .malformed)).state.access_token = none ∧
    (stCached.handle_access_token (.response 200 .malformed)).err = none ∧
    (stCached.handle_access_token
        (.response 200 (.obj [("expires_in", "3600")]))).err =
      some (.keyError "access_token") ∧
    (stCached.handle_access_token
        (.response 200 (.obj [("expires_in", "3600")]))).state = stCached ∧
    (stSample.get_auth_header (.response 200 .malformed)).result = none ∧
    (stSample.get_auth_header (.response 200 .malformed)).err = none ∧
    (stSample.get_auth_header
        (.response 200 .malformed)).state.access_token = none ∧
    (stSample.get_auth_header
        (.response 200 (.obj [("expires_in", "3600")]))).err =
      some (.keyError "access_token") :=
  have hC := c3_fetch_body_errors stCached 200 [("expires_in", "3600")]
    (by decide) (by decide) rfl
  have hS := c3_fetch_body_errors stSample 200 [("expires_in", "3600")]
    (by decide) (by decide) rfl
  ⟨hC.1, hC.2.1, hC.2.2.2.1, hC.2.2.2.2.1,
   (hS.2.2.1 rfl).1, (hS.2.2.1 rfl).2.1, (hS.2.2.1 rfl).2.2,
   hS.2.2.2.2.2 rfl⟩

/-- **C4** (status: confirmed).  After a fetch that fails with a non-2xx
status, a timeout or a transport error, the token is cleared; while the
environment keeps failing, `get_auth_header` returns no header (and no
exception) and no token is cached; a subsequent successful fetch restores
the `Bearer` header. -/
theorem c4_no_stale_token_after_failed_fetch (st : AuthService)
    (net net2 : HttpResult) (tok : String)
    (h : failedFetch net = true) (h2 : failedFetch net2 = true)
    (ht : tok.isEmpty = false) :
    (st.handle_access_token net).state.access_token = none ∧
    ((st.handle_access_token net).state.get_auth_header net2).result =
      none ∧
    ((st.handle_access_token net).state.get_auth_header net2).err = none ∧
    ((st.handle_access_token net).state.get_auth_header
        net2).state.access_token = none ∧
    ((st.handle_access_token net).state.get_auth_header
        (.response 200 (.obj [("access_token", tok)]))).result =
      some [("authorization", "Bearer " ++ tok)] := by
  have hs1 : (st.handle_access_token net).state.access_token = none := by
    rw [handle_failed st net h]
  refine ⟨hs1, ?_, ?_, ?_, ?_⟩ <;>
    generalize hgen : (st.handle_access_token net).state = s1 at hs1 ⊢
  all_goals
    have hcond : (tokenFalsy s1.access_token || !s1.scheduler_running)
        = true := by simp [hs1, tokenFalsy]
  · have hberr : (s1.get_bearer_token net2).err = none := by
      rw [get_bearer_token_err, if_pos hcond]
      exact (authenticate_failed s1 net2 h2).2
    have htok : (s1.get_bearer_token net2).state.access_token = none := by
      rw [get_bearer_token_state, if_pos hcond]
      exact (authenticate_failed s1 net2 h2).1
    have hbres : (s1.get_bearer_token net2).result = none := by
      rw [get_bearer_token_result _ _ hberr, htok]
      rfl
    rw [get_auth_header_result _ _ hberr, hbres]
  · have hberr : (s1.get_bearer_token net2).err = none := by
      rw [get_bearer_token_err, if_pos hcond]
      exact (authenticate_failed s1 net2 h2).2
    rw [get_auth_header_err, hberr]
  · have htok : (s1.get_bearer_token net2).state.access_token = none := by
      rw [get_bearer_token_state, if_pos hcond]
      exact (authenticate_failed s1 net2 h2).1
    rw [get_auth_header_state, htok]
  · have hberr2 : (s1.get_bearer_token
        (.response 200 (.obj [("access_token", tok)]))).err = none := by
      rw [get_bearer_token_err, if_pos hcond]
      exact (authenticate_success s1 tok).2
    have htok2 : (s1.get_bearer_token
        (.response 200 (.obj [("access_token", tok)]))).state.access_token =
        some tok := by
      rw [get_bearer_token_state, if_pos hcond]
      exact (authenticate_success s1 tok).1
    have hbres2 : (s1.get_bearer_token
        (.response 200 (.obj [("access_token", tok)]))).result =
        some ("Bearer " ++ tok) := by
      rw [get_bearer_token_result _ _ hberr2, htok2]
      simp [bearerOf, ht]
    rw [get_auth_header_result _ _ hberr2, hbres2]
    simp [bearer_isEmpty_false]

/-- Witness for `c4_no_stale_token_after_failed_fetch`: a cached-token
state, a 401 response, then a timeout, then a success with token
`abc123`. -/
theorem c4_witness :
    (stCached.handle_access_token
        (.response 401 (.obj []))).state.access_token = none ∧
    ((stCached.handle_access_token
        (.response 401 (.obj []))).state.get_auth_header .timeout).result =
      none ∧
    ((stCached.handle_access_token
        (.response 401 (.obj []))).state.get_auth_header .timeout).err =
      none ∧
    ((stCached.handle_access_token (.response 401 (.obj []))).state.get_auth_header
        .timeout).state.access_token = none ∧
    ((stCached.handle_access_token (.response 401 (.obj []))).state.get_auth_header
        (.response 200 (.obj [("access_token", "abc123")]))).result =
      some [("authorization", "Bearer " ++ "abc123")] :=
  c4_no_stale_token_after_failed_fetch stCached (.response 401 (.obj []))
    .timeout "abc123" (by decide) rfl rfl

/-- **C5** (counterexample).  A configuration whose refresh interval is
the *negative* integer `-5` passes construction: Python's
`if not refresh_interval` only rejects a falsy (zero) value, so the claim
that a negative refresh interval fails construction is false.  (There is
also no configurable timeout at all: the constructed timeout is always
5.) -/
theorem c5_negative_interval_accepted :
    (AuthService.init negIntervalCfg rfSample).1.toOption.isSome = true ∧
    negIntervalCfg.refresh_interval = some (-5) ∧
    (∀ st, (AuthService.init negIntervalCfg rfSample).1 = .ok st →
      st.timeout = 5) := by
  refine ⟨rfl, rfl, fun st h => ?_⟩
  rw [init_ok _ _ _ h]

/-- **C5 as amended** (status: corrected).  Construction with an empty
endpoint, an empty user email, a missing/empty API key, or a *zero*
refresh interval fails with a `ValueError` (checked in that order), and
construction never performs a network call; but a negative refresh
interval is accepted (see `c5_negative_interval_accepted`) and no timeout
is read from the configuration or validated — it is hardcoded to 5. -/
theorem c5_construction_validation (cfg : AuthConfig)
    (rf : String → String) :
    ((AuthService.init cfg rf).2 = []) ∧
    (cfg.endpoint.isEmpty = true →
      (AuthService.init cfg rf).1 =
        .error (.valueError "Auth service endpoint must be provided.")) ∧
    (cfg.endpoint.isEmpty = false → cfg.user_email.isEmpty = true →
      (AuthService.init cfg rf).1 =
        .error (.valueError "User email must be provided.")) ∧
    (cfg.endpoint.isEmpty = false → cfg.user_email.isEmpty = false →
      tokenFalsy (effectiveApiKey cfg rf) = true →
      (AuthService.init cfg rf).1 =
        .error (.valueError "User api key must be provided.")) ∧
    (cfg.endpoint.isEmpty = false → cfg.user_email.isEmpty = false →
      tokenFalsy (effectiveApiKey cfg rf) = false →
      cfg.refresh_interval.getD 300 = 0 →
      (AuthService.init cfg rf).1 =
        .error (.valueError "Refresh interval must be provided.")) := by
  refine ⟨init_requests cfg rf, ?_, ?_, ?_, ?_⟩
  · intro h1
    simp [AuthService.init, h1]
  · intro h1 h2
    simp [AuthService.init, h1, h2]
  · intro h1 h2 h3
    simp [AuthService.init, h1, h2, h3]
  · intro h1 h2 h3 h4
    simp [AuthService.init, h1, h2, h3, h4]

/-- Witness for `c5_construction_validation`: the empty-endpoint
configuration fails with the endpoint `ValueError` and issues no
request. -/
theorem c5_construction_validation_witness :
    (AuthService.init cfgEmptyEndpoint rfSample).1 =
      .error (.valueError "Auth service endpoint must be provided.") ∧
    (AuthService.init cfgEmptyEndpoint rfSample).2 = [] :=
  ⟨(c5_construction_validation cfgEmptyEndpoint rfSample).2.1 rfl,
   (c5_construction_validation cfgEmptyEndpoint rfSample).1⟩

/-- **C6** (status: confirmed).  From a state where no token was ever
fetched (no cached token, scheduler never started), `get_auth_header`
performs exactly one synchronous token fetch before returning, in every
network environment. -/
theorem c6_first_call_fetches_once (st : AuthService) (net : HttpResult)
    (h1 : st.access_token = none) (h2 : st.scheduler_running = false) :
    (st.get_auth_header net).fetches = 1 := by
  rw [get_auth_header_fetches, get_bearer_token_fetches]
  simp [h1, h2, tokenFalsy]

/-- Witness for `c6_first_call_fetches_once` on the freshly constructed
sample state with a timing-out network. -/
theorem c6_first_call_fetches_once_witness :
    (stSample.get_auth_header .timeout).fetches = 1 :=
  c6_first_call_fetches_once stSample .timeout rfl rfl

/-- **C7** (status: confirmed).  On a constructed service, every token
fetch issues exactly one request: a POST to the configured endpoint with
`authorization: Basic <base64(email:apiKey)>`,
`Content-Type: application/json`, empty JSON body, and the instance
timeout (5 seconds), in every network environment — hence no retry inside
the fetch. -/
theorem c7_fetch_is_single_basic_post (cfg : AuthConfig)
    (rf : String → String) (st : AuthService) (net : HttpResult)
    (h : (AuthService.init cfg rf).1 = .ok st) :
    (st.handle_access_token net).requests =
      [{ method := "POST"
         url := cfg.endpoint
         headers := [("Content-Type", "application/json"),
           ("authorization", "Basic " ++ b64encode
             (cfg.user_email ++ ":" ++ (effectiveApiKey cfg rf).getD ""))]
         jsonBody := []
         timeout := 5 }] := by
  rw [handle_requests, init_ok cfg rf st h]
  rfl

/-- Witness for `c7_fetch_is_single_basic_post` on the sample
configuration. -/
theorem c7_fetch_is_single_basic_post_witness :
    (stSample.handle_access_token .timeout).requests =
      [{ method := "POST"
         url := cfgSample.endpoint
         headers := [("Content-Type", "application/json"),
           ("authorization", "Basic " ++ b64encode
             (cfgSample.user_email ++ ":" ++
               (effectiveApiKey cfgSample rfSample).getD ""))]
         jsonBody := []
         timeout := 5 }] :=
  c7_fetch_is_single_basic_post cfgSample rfSample stSample .timeout rfl

/-- **C8** (status: confirmed).  Starting from a freshly constructed
service, after any sequence of `authenticateNow` / `getBearerHeader`
operations the background scheduler has been created and started at most
once; and once it is running, a further `_authenticate` call neither
starts another scheduler nor stops the existing one. -/
theorem c8_scheduler_started_at_most_once (cfg : AuthConfig)
    (rf : String → String) (st0 : AuthService) (ops : List AuthOp)
    (net : HttpResult) (h : (AuthService.init cfg rf).1 = .ok st0) :
    (runOps st0 ops).scheduler_starts ≤ 1 ∧
    ((runOps st0 ops).scheduler_running = true →
      ((runOps st0 ops).authenticate net).state.scheduler_starts =
        (runOps st0 ops).scheduler_starts ∧
      ((runOps st0 ops).authenticate net).state.scheduler_running =
        true) := by
  have h0 : schedInv st0 := by
    rw [init_ok cfg rf st0 h]
    rfl
  have hinv := runOps_schedInv st0 ops h0
  refine ⟨?_, fun hr =>
    ⟨(authenticate_running _ net hr).2, (authenticate_running _ net hr).1⟩⟩
  unfold schedInv at hinv
  rw [hinv]
  split <;> omega

/-- Witness for `c8_scheduler_started_at_most_once` on the sample
configuration and the two-operation sample sequence (which starts the
scheduler). -/
theorem c8_scheduler_started_at_most_once_witness :
    (runOps stSample opsW).scheduler_starts ≤ 1 ∧
    ((runOps stSample opsW).authenticate .timeout).state.scheduler_starts =
      (runOps stSample opsW).scheduler_starts ∧
    ((runOps stSample opsW).authenticate .timeout).state.scheduler_running =
      true :=
  ⟨(c8_scheduler_started_at_most_once cfgSample rfSample stSample opsW
      .timeout rfl).1,
   (c8_scheduler_started_at_most_once cfgSample rfSample stSample opsW
      .timeout rfl).2 rfl⟩

/-- **C9** (status: confirmed).  Disposal never raises: `__del__` returns
without exception whether or not the scheduler shutdown raises
(`except: pass`), it attempts a shutdown exactly when the scheduler was
started, and it is a no-op otherwise. -/
theorem c9_disposal_never_raises (st : AuthService) (b : Bool) :
    (st.del_ b).1 = none ∧ (st.del_ b).2 = st.scheduler_running := by
  unfold AuthService.del_
  cases h : st.scheduler_running <;> simp

/-- **C10** (status: confirmed).  When `get_auth_header` does not raise,
it returns `None` exactly when the post-call token is absent or empty,
and otherwise the one-entry dictionary with lower-case key
`"authorization"` and value `Bearer <token>`. -/
theorem c10_auth_header_shape (st : AuthService) (net : HttpResult)
    (h : (st.get_auth_header net).err = none) :
    ((st.get_auth_header net).result = none ↔
      tokenFalsy ((st.get_auth_header net).state.access_token) = true) ∧
    (tokenFalsy ((st.get_auth_header net).state.access_token) = false →
      (st.get_auth_header net).result =
        some [("authorization", "Bearer " ++
          ((st.get_auth_header net).state.access_token).getD "")]) := by
  have hb : (st.get_bearer_token net).err = none := by
    rw [← get_auth_header_err]
    exact h
  have hres := get_auth_header_result st net hb
  have hbres := get_bearer_token_result st net hb
  rw [get_auth_header_state]
  cases ht : (st.get_bearer_token net).state.access_token with
  | none =>
      rw [ht] at hbres
      rw [hres, hbres]
      simp [tokenFalsy, bearerOf]
  | some tok =>
      rw [ht] at hbres
      cases hemp : tok.isEmpty with
      | true =>
          simp [bearerOf, hemp] at hbres
          rw [hres, hbres]
          simp [tokenFalsy, hemp]
      | false =>
          simp [bearerOf, hemp] at hbres
          rw [hres, hbres]
          simp [tokenFalsy, hemp, bearer_isEmpty_false]

/-- Witness for `c10_auth_header_shape` on a cached-token state (no fetch
triggered, no exception): the header is exactly
`{"authorization": "Bearer oldtoken"}`. -/
theorem c10_auth_header_shape_witness :
    ((stCached.get_auth_header .timeout).result = none ↔
      tokenFalsy ((stCached.get_auth_header .timeout).state.access_token) =
        true) ∧
    (stCached.get_auth_header .timeout).result =
      some [("authorization", "Bearer " ++
        ((stCached.get_auth_header .timeout).state.access_token).getD "")] :=
  ⟨(c10_auth_header_shape stCached .timeout rfl).1,
   (c10_auth_header_shape stCached .timeout rfl).2 rfl⟩

end ErCcapi
